import Mathlib

/-!
Verification of the Vanilla-bot moderation workflows: persisted counters,
strike ledger, suggestion records and the ticket lifecycle, shallowly
embedded from `DiscordSuggestionBot/bot.py`.  Python dicts become
insertion-ordered association lists, JSON files become explicit state, and
each handler is a pure function from its inputs and the persisted state to
a result, the successor state and the side-effect commands it issues.
-/

deriving instance DecidableEq for Except

namespace VanillaBot

/-- Python dict assignment on an insertion-ordered association list:
updates the value in place when the key is present, appends otherwise. -/
def dictSet {κ β : Type} [BEq κ] : List (κ × β) → κ → β → List (κ × β)
  | [], k, v => [(k, v)]
  | (k', v') :: t, k, v => if k' == k then (k, v) :: t else (k', v') :: dictSet t k v

theorem dictSet_lookup {κ β : Type} [BEq κ] [LawfulBEq κ]
    (l : List (κ × β)) (k : κ) (v : β) : (dictSet l k v).lookup k = some v := by
  induction l with
  | nil => simp [dictSet, List.lookup]
  | cons p t ih =>
    obtain ⟨k', v'⟩ := p
    by_cases h : k' = k
    · subst h
      simp [dictSet, List.lookup]
    · have hb : (k' == k) = false := by simp [h]
      have hb' : (k == k') = false := by simp [Ne.symm h]
      simp [dictSet, hb, List.lookup, hb', ih]

/-- `strLeads pre s` decides whether the character list `pre` is an initial
segment of `s` (structural recursion, used to model Python's
`str.startswith`). -/
def strLeads : List Char → List Char → Bool
  | [], _ => true
  | _ :: _, [] => false
  | p :: ps, c :: cs => p == c && strLeads ps cs

/-- Python's `str.startswith(pre)`. -/
def pyStartsWith (s pre : String) : Bool := strLeads pre.data s.data

/-- Python's `str.lower()` (ASCII case folding suffices for the contents the
handlers compare). -/
def pyLower (s : String) : String := String.mk (s.data.map Char.toLower)

def isWs (c : Char) : Bool := c == ' ' || c == '\t' || c == '\n' || c == '\r'

def dropLeadWs : List Char → List Char
  | [] => []
  | c :: cs => if isWs c then dropLeadWs cs else c :: cs

/-- Python's `str.strip()`: removes leading and trailing whitespace. -/
def pyStrip (s : String) : String :=
  String.mk ((dropLeadWs ((dropLeadWs s.data).reverse)).reverse)

/-! ## Strike ledger (`strikes.json`, bot.py lines 439-651) -/

/-- One entry of a user's strike history, as appended by `_add_strike`. -/
structure Strike where
  tipo : String
  motivo : String
  fecha : String
  autor : String
  deriving DecidableEq

/-- The tally produced by `count_strikes`. -/
structure StrikeCounts where
  leve : Nat
  moderado : Nat
  grave : Nat
  deriving DecidableEq

/-- The loop of `count_strikes`: `count[strike["tipo"]] += 1` over a dict with
the three severity keys; an entry with any other severity raises `KeyError`,
made explicit here as the error branch carrying the offending severity. -/
def count_strikes_aux (acc : StrikeCounts) : List Strike → Except String StrikeCounts
  | [] => .ok acc
  | s :: t =>
    if s.tipo = "leve" then count_strikes_aux { acc with leve := acc.leve + 1 } t
    else if s.tipo = "moderado" then count_strikes_aux { acc with moderado := acc.moderado + 1 } t
    else if s.tipo = "grave" then count_strikes_aux { acc with grave := acc.grave + 1 } t
    else .error s.tipo

/-- `count_strikes` (bot.py lines 468-473). -/
def count_strikes (l : List Strike) : Except String StrikeCounts :=
  count_strikes_aux ⟨0, 0, 0⟩ l

/-- The four characters prefixing the critical-limit messages in the source
(bytes 0x011F 0x0178 0x0161 0x00A8 of bot.py). -/
def alertTag : String := "ğŸš¨"

/-- The five characters prefixing the warning messages in the source
(bytes 0x00E2 0x0161 0x00A0 0x00EF 0x00B8 of bot.py). -/
def warnTag : String := "âš ï¸"

def despidoDirectoMsg : String := alertTag ++ " **POSIBLE DESPIDO DIRECTO** (1+ strikes graves)"

def despidoLevesMsg : String := alertTag ++ " **POSIBLE DESPIDO** (5+ strikes leves)"

def despidoModeradosMsg : String := alertTag ++ " **POSIBLE DESPIDO** (3+ strikes moderados)"

def advertenciaLevesMsg : String := warnTag ++ " **ADVERTENCIA** (3+ strikes leves)"

def advertenciaModeradosMsg : String := warnTag ++ " **ADVERTENCIA** (2+ strikes moderados)"

/-- `check_strike_limits` (bot.py lines 475-495): the escalation ladder over
the severity tally, first matching branch wins. -/
def check_strike_limits (c : StrikeCounts) : Option String :=
  if 1 ≤ c.grave then some despidoDirectoMsg
  else if 5 ≤ c.leve then some despidoLevesMsg
  else if 3 ≤ c.moderado then some despidoModeradosMsg
  else if 3 ≤ c.leve then some advertenciaLevesMsg
  else if 2 ≤ c.moderado then some advertenciaModeradosMsg
  else none

/-- The escalation tiers named by the specification. -/
inductive Escalation where
  | directTerminationRisk
  | terminationRisk
  | warning
  deriving DecidableEq

/-- Maps each escalation message of `check_strike_limits` to the tier it
announces (both despido messages announce the same termination-risk tier). -/
def msgEscalation (s : String) : Option Escalation :=
  if s = despidoDirectoMsg then some .directTerminationRisk
  else if s = despidoLevesMsg then some .terminationRisk
  else if s = despidoModeradosMsg then some .terminationRisk
  else if s = advertenciaLevesMsg then some .warning
  else if s = advertenciaModeradosMsg then some .warning
  else none

/-- Modelled from the spec: escalation order, most severe first — at least one
severe gives direct termination risk; else at least five minor or three
moderate give termination risk; else at least three minor or two moderate
give a warning; else no escalation. -/
def escalationSpec (minor moderate severe : Nat) : Option Escalation :=
  if 1 ≤ severe then some .directTerminationRisk
  else if 5 ≤ minor ∨ 3 ≤ moderate then some .terminationRisk
  else if 3 ≤ minor ∨ 2 ≤ moderate then some .warning
  else none

/-- The severity argument of the strike slash command:
`Literal["leve", "moderado", "grave"]`. -/
inductive Severity where
  | leve
  | moderado
  | grave
  deriving DecidableEq

def Severity.toStr : Severity → String
  | .leve => "leve"
  | .moderado => "moderado"
  | .grave => "grave"

/-- A severity string recognised by `count_strikes`. -/
abbrev validTipo (s : String) : Prop := s = "leve" ∨ s = "moderado" ∨ s = "grave"

/-- The strike store, user id (stored as text) to entry list. -/
abbrev StrikesData := List (String × List Strike)

inductive AddStrikeResult where
  | missingArgs
  | added (warning : Except String (Option String))
  deriving DecidableEq

/-- `_add_strike` (bot.py lines 528-572): the guard `if not tipo or not
motivo` rejects a missing argument by Python falsiness — a `Literal` severity
value is never falsy, so `not tipo` is a None check, while `not motivo` also
rejects the empty string.  Otherwise it appends the dated entry to the user's
list (creating it if absent), persists, then evaluates the escalation policy
over the updated list. -/
def add_strike (data : StrikesData) (uid : String) (tipo : Option Severity)
    (motivo : Option String) (fecha autor : String) : AddStrikeResult × StrikesData :=
  match tipo, motivo with
  | some t, some m =>
    if m = "" then (.missingArgs, data)
    else
      let entries := ((data.lookup uid).getD []) ++ [⟨t.toStr, m, fecha, autor⟩]
      (.added ((count_strikes entries).map check_strike_limits), dictSet data uid entries)
  | _, _ => (.missingArgs, data)

inductive RemoveStrikeResult where
  | notFound
  | removed (s : Strike)
  deriving DecidableEq

/-- `_remove_strike` (bot.py lines 625-651): pops the most recently appended
entry; a user with no entry list, or an empty one, yields the not-found reply
and the store is left untouched. -/
def remove_strike (data : StrikesData) (uid : String) :
    RemoveStrikeResult × StrikesData :=
  match data.lookup uid with
  | none => (.notFound, data)
  | some entries =>
    match entries.getLast? with
    | none => (.notFound, data)
    | some last => (.removed last, dictSet data uid entries.dropLast)

/-! ## Persisted store writes (`save_counters`, `save_strikes`,
`save_suggestions`, `save_tickets`) -/

/-- Primitive file-system steps a save can take.  `truncate` is the effect of
`open(path, 'w')`, `writeAll` the completed `json.dump`; `writeTemp` and
`renameTemp` are the steps of a write-to-temporary-then-publish discipline. -/
inductive FsOp where
  | truncate (path : String)
  | writeAll (path : String) (content : String)
  | writeTemp (content : String)
  | renameTemp (path : String)
  deriving DecidableEq

structure Fs where
  files : List (String × String)
  temp : Option String
  deriving DecidableEq

def applyOp (fs : Fs) : FsOp → Fs
  | .truncate p => { fs with files := dictSet fs.files p "" }
  | .writeAll p c => { fs with files := dictSet fs.files p c }
  | .writeTemp c => { fs with temp := some c }
  | .renameTemp p =>
    match fs.temp with
    | some c => { files := dictSet fs.files p c, temp := none }
    | none => fs

def applyOps (fs : Fs) (ops : List FsOp) : Fs := ops.foldl applyOp fs

/-- `save_counters` (bot.py lines 167-176): `open(self.counter_file, 'w')`
followed by `json.dump` straight into the target file. -/
def save_counters_ops (content : String) : List FsOp :=
  [.truncate "message_counters.json", .writeAll "message_counters.json" content]

/-- `save_strikes` (bot.py lines 450-456): same direct overwrite of the
strikes file. -/
def save_strikes_ops (content : String) : List FsOp :=
  [.truncate "strikes.json", .writeAll "strikes.json" content]

/-- `save_suggestions` (bot.py lines 798-804): same direct overwrite of the
suggestions file. -/
def save_suggestions_ops (content : String) : List FsOp :=
  [.truncate "suggestions.json", .writeAll "suggestions.json" content]

/-- `save_tickets` (bot.py lines 1024-1034): same direct overwrite of the
tickets file. -/
def save_tickets_ops (content : String) : List FsOp :=
  [.truncate "tickets.json", .writeAll "tickets.json" content]

/-- Modelled from the spec: the new content is written to a temporary
location and only then made visible by publishing it over the target. -/
def saveAtomicSpecOps (path content : String) : List FsOp :=
  [.writeTemp content, .renameTemp path]

/-! ## Suggestion workflow (`suggestions.json`, bot.py lines 785-1006) -/

/-- A suggestion record as stored by `suggest_create`; the reviewer fields
are absent until a resolution writes them. -/
structure SuggestionRecord where
  user_id : Nat
  user_name : String
  suggestion : String
  status : String
  created_at : String
  channel_id : Nat
  reviewed_by : Option Nat
  reviewed_at : Option String
  moved_to_results : Option Bool
  final_votes : Option (Int × Int)
  deriving DecidableEq

/-- The record `suggest_create` persists for a newly posted suggestion. -/
def suggestCreateRecord (uid : Nat) (uname sugerencia createdAt : String)
    (chan : Nat) : SuggestionRecord :=
  ⟨uid, uname, sugerencia, "pending", createdAt, chan, none, none, none, none⟩

inductive ResolveResult where
  | noPermission
  | notFound
  | messageUnavailable
  | success
  deriving DecidableEq

abbrev SuggestionsData := List (String × SuggestionRecord)

/-- Common body of `suggest_accept` (bot.py lines 868-936) and `suggest_deny`
(lines 938-1006).  `fetchOk` is whether the original suggestion message could
still be fetched from its channel; `upvotes`/`downvotes` are the reaction
tallies computed from that fetched platform message (each reaction count
minus the bot's own initial reaction).  On the success path the record is
updated and persisted unconditionally — the stored status is never
consulted. -/
def suggest_resolve (newStatus : String) (hasRole : Bool) (store : SuggestionsData)
    (mid : String) (fetchOk : Bool) (upvotes downvotes : Int)
    (reviewer : Nat) (now : String) : ResolveResult × SuggestionsData :=
  if !hasRole then (.noPermission, store)
  else
    match store.lookup mid with
    | none => (.notFound, store)
    | some r =>
      if !fetchOk then (.messageUnavailable, store)
      else
        (.success, dictSet store mid
          { r with status := newStatus, reviewed_by := some reviewer,
                   reviewed_at := some now, moved_to_results := some true,
                   final_votes := some (upvotes, downvotes) })

def suggest_accept := suggest_resolve "accepted"

def suggest_deny := suggest_resolve "denied"

/-! ## Ticket workflow (`tickets.json`, bot.py lines 1008-1203) -/

/-- A ticket record as stored in `tickets.json`. -/
structure TicketRec where
  number : Nat
  creator_id : Nat
  creator_name : String
  motivo : String
  created_at : String
  status : String
  closed_by : Option Nat
  closed_at : Option String
  deriving DecidableEq

/-- Ticket persistence state: the in-memory `self.ticket_counter` and the
`tickets.json` file holding the counter alongside the record map (`none`
when the file does not exist). -/
structure TicketSt where
  mem : Nat
  file : Option (Nat × List (Nat × TicketRec))
  deriving DecidableEq

/-- `load_tickets` (bot.py lines 1010-1022): reads the file, overwrites the
in-memory `self.ticket_counter` with the stored counter, and returns the
record map; a missing file yields the empty map and leaves the counter. -/
def load_tickets (s : TicketSt) : TicketSt × List (Nat × TicketRec) :=
  match s.file with
  | some (c, ts) => ({ s with mem := c }, ts)
  | none => (s, [])

/-- `save_tickets` at the state level: persists the current in-memory counter
next to the given record map. -/
def save_tickets (s : TicketSt) (ts : List (Nat × TicketRec)) : TicketSt :=
  { s with file := some (s.mem, ts) }

/-- The channel-name marker of ticket channels, `"ğŸŸï¸-ticket-"` in the
source (channel names are `marker + zero-padded number`). -/
def ticketNameTag : String := "ğŸŸï¸-ticket-"

/-- `create_ticket` (bot.py lines 1036-1091): increments the in-memory
counter and takes the new value as the ticket number, provisions the channel,
then calls `load_tickets` (which overwrites the in-memory counter with the
persisted one) before inserting the record and saving. -/
def create_ticket (s : TicketSt) (chanId creatorId : Nat)
    (creatorName motivo now : String) : TicketSt × Nat :=
  let s1 : TicketSt := { s with mem := s.mem + 1 }
  let number := s1.mem
  let s2 := (load_tickets s1).1
  let ts := (load_tickets s1).2
  let ts1 := dictSet ts chanId
    ⟨number, creatorId, creatorName, motivo, now, "open", none, none⟩
  (save_tickets s2 ts1, number)

/-- A bot restart: a fresh instance starts with `ticket_counter = 0` (set in
`__init__`); the tickets file persists across the restart. -/
def restartBot (s : TicketSt) : TicketSt := { s with mem := 0 }

structure CloseEffects where
  transcript : Bool
  channelDeleted : Bool
  saved : Bool
  deriving DecidableEq

def noCloseEffects : CloseEffects := ⟨false, false, false⟩

inductive CloseResult where
  | noPermission
  | notTicketChannel
  | notFound
  | closed
  deriving DecidableEq

/-- `close_ticket` (bot.py lines 1126-1168): requires the privileged role and
a ticket-named channel, loads the store, and when the channel has no record
replies not-found without generating a transcript, saving, or scheduling the
channel deletion; otherwise it generates the transcript, marks the record
closed, saves, and schedules deletion. -/
def close_ticket (s : TicketSt) (priv : Bool) (chanName : String)
    (chanId closerId : Nat) (now : String) :
    CloseResult × TicketSt × CloseEffects :=
  if !priv then (.noPermission, s, noCloseEffects)
  else if !(pyStartsWith chanName ticketNameTag) then (.notTicketChannel, s, noCloseEffects)
  else
    let s1 := (load_tickets s).1
    let ts := (load_tickets s).2
    match ts.lookup chanId with
    | none => (.notFound, s1, noCloseEffects)
    | some t =>
      let t1 : TicketRec :=
        { t with status := "closed", closed_by := some closerId, closed_at := some now }
      (.closed, save_tickets s1 (dictSet ts chanId t1), ⟨true, true, true⟩)

/-! ## Message handling (`on_message`, bot.py lines 304-435) -/

structure BotConfig where
  channelId : Nat
  messageThreshold : Nat
  helpThreshold : Nat
  deriving DecidableEq

/-- The fields of an inbound message event that `on_message` consults.
`authorPrivileged` is `has_required_role(message.author)`;
`channelHasName` is `hasattr(message.channel, 'name')`. -/
structure Msg where
  authorBot : Bool
  authorId : Nat
  authorPrivileged : Bool
  content : String
  channelId : Nat
  channelHasName : Bool
  channelName : String
  deriving DecidableEq

structure CounterState where
  messageCounters : List (Nat × Nat)
  helpCounter : Nat
  deriving DecidableEq

structure MsgEffects where
  deletedMessage : Bool
  sentReminder : Bool
  sentHelp : Bool
  savedCounters : Option (List (Nat × Nat))
  deriving DecidableEq

def noMsgEffects : MsgEffects := ⟨false, false, false, none⟩

/-- The `/test bienvenida` / `/test despedida` early exits of `on_message`
(bot.py lines 316-335). -/
def isTestCommand (content : String) : Bool :=
  let c := pyStrip (pyLower content)
  c == "/test bienvenida" || c == "test bienvenida" ||
    c == "/test despedida" || c == "test despedida"

/-- The per-channel counter block of `on_message` (bot.py lines 365-383):
read, increment, write back, fire and reset on reaching the threshold; the
returned map is what the single trailing `save_counters` call persists. -/
def recordMessage (counters : List (Nat × Nat)) (chan threshold : Nat) :
    Bool × List (Nat × Nat) :=
  let current := ((counters.lookup chan).getD 0) + 1
  let counters1 := dictSet counters chan current
  if threshold ≤ current then (true, dictSet counters1 chan 0)
  else (false, counters1)

/-- The help-counter block of `on_message` (bot.py lines 419-432). -/
def helpStep (cfg : BotConfig) (st : CounterState) (msg : Msg) :
    CounterState × MsgEffects :=
  if !(pyStartsWith msg.content "/") && !msg.authorBot && msg.channelHasName then
    if cfg.helpThreshold ≤ st.helpCounter + 1 then
      ({ st with helpCounter := 0 }, { noMsgEffects with sentHelp := true })
    else
      ({ st with helpCounter := st.helpCounter + 1 }, noMsgEffects)
  else (st, noMsgEffects)

/-- `on_message` (bot.py lines 304-435): bot authors are ignored; test
commands exit early; messages in the monitored suggestions channel either get
deleted (non-command text from a non-privileged author) or feed the
per-channel counter and return; messages in a ticket-named channel from a
non-privileged author other than the recorded creator get deleted; every
remaining non-command message in a named channel feeds the global help
counter. -/
def on_message (cfg : BotConfig) (st : CounterState) (msg : Msg)
    (ticketsOnDisk : List (Nat × TicketRec)) : CounterState × MsgEffects :=
  if msg.authorBot then (st, noMsgEffects)
  else if isTestCommand msg.content then (st, noMsgEffects)
  else if msg.channelId = cfg.channelId then
    if !(pyStartsWith msg.content "/") && !msg.authorPrivileged then
      (st, { noMsgEffects with deletedMessage := true })
    else
      let fired := (recordMessage st.messageCounters msg.channelId cfg.messageThreshold).1
      let counters1 := (recordMessage st.messageCounters msg.channelId cfg.messageThreshold).2
      ({ st with messageCounters := counters1 },
        { noMsgEffects with sentReminder := fired, savedCounters := some counters1 })
  else if msg.channelHasName && pyStartsWith msg.channelName ticketNameTag
      && !msg.authorPrivileged then
    match ticketsOnDisk.lookup msg.channelId with
    | some t =>
      if msg.authorId ≠ t.creator_id then (st, { noMsgEffects with deletedMessage := true })
      else helpStep cfg st msg
    | none => helpStep cfg st msg
  else helpStep cfg st msg

/-! ## Interleaved counter handlers (concurrency model for the counter block) -/

/-- Global state shared by concurrently dispatched counter handlers for one
channel: the channel counter, the number of reminders emitted so far, and
each handler's phase (0: not yet run; 1: incremented past the threshold and
suspended at the `await send_reminder` call; 2: finished). -/
structure RaceState where
  count : Nat
  fires : Nat
  phases : List Nat
  deriving DecidableEq

/-- One scheduler step running handler `i`.  Phase 0 is the synchronous
read-increment-write and threshold check of bot.py lines 367-376 (no await
point inside, so it is one atomic unit); a handler whose new count reached
the threshold suspends at `await self.send_reminder(...)`, and its phase-1
step is the code after that suspension point: the reminder has been emitted
and the counter is reset to zero (lines 377-379). -/
def raceStep (threshold : Nat) (s : RaceState) (i : Nat) : RaceState :=
  match s.phases.get? i with
  | some 0 =>
    let c := s.count + 1
    if threshold ≤ c then { s with count := c, phases := s.phases.set i 1 }
    else { s with count := c, phases := s.phases.set i 2 }
  | some 1 => { s with fires := s.fires + 1, count := 0, phases := s.phases.set i 2 }
  | _ => s

/-- Runs `n` concurrent counter handlers on one channel under a given
interleaving of their steps. -/
def runSched (threshold n : Nat) (sched : List Nat) : RaceState :=
  sched.foldl (raceStep threshold) ⟨0, 0, List.replicate n 0⟩

/-! ## Theorems -/

/-- Claim C4: escalation classification is a pure function of the three
severity counts, evaluated most severe first with exactly one outcome —
severe ≥ 1 classifies as direct termination risk; else minor ≥ 5 or
moderate ≥ 3 classify as termination risk; else minor ≥ 3 or moderate ≥ 2
classify as a warning; else no escalation — and in particular one severe
strike gives direct termination risk, three minor strikes give a warning and
two minor strikes give no escalation. -/
theorem check_strike_limits_matches_spec :
    (∀ l m g : Nat,
      (check_strike_limits ⟨l, m, g⟩).bind msgEscalation = escalationSpec l m g ∧
      (check_strike_limits ⟨l, m, g⟩).isSome = (escalationSpec l m g).isSome) ∧
    (check_strike_limits ⟨0, 0, 1⟩).bind msgEscalation
      = some Escalation.directTerminationRisk ∧
    (check_strike_limits ⟨3, 0, 0⟩).bind msgEscalation = some Escalation.warning ∧
    check_strike_limits ⟨2, 0, 0⟩ = none := by
  refine ⟨fun l m g => ?_, by decide, by decide, by decide⟩
  unfold check_strike_limits escalationSpec
  dsimp only
  split_ifs <;> first | omega | decide

/-- Accumulator form of the success half of claim C10. -/
theorem count_strikes_aux_ok (l : List Strike) : ∀ acc : StrikeCounts,
    (∀ s ∈ l, validTipo s.tipo) →
    ∃ c, count_strikes_aux acc l = .ok c ∧
      c.leve + c.moderado + c.grave
        = acc.leve + acc.moderado + acc.grave + l.length := by
  induction l with
  | nil => exact fun acc _ => ⟨acc, rfl, by simp⟩
  | cons a t ih =>
    intro acc h
    have ha := h a (List.mem_cons_self a t)
    have ht : ∀ s ∈ t, validTipo s.tipo := fun s hs => h s (List.mem_cons_of_mem a hs)
    rcases ha with h1 | h1 | h1
    · obtain ⟨c, hc, hsum⟩ := ih { acc with leve := acc.leve + 1 } ht
      exact ⟨c, by simpa [count_strikes_aux, h1] using hc, by simp at hsum ⊢; omega⟩
    · have hne : ¬ (a.tipo = "leve") := by rw [h1]; decide
      obtain ⟨c, hc, hsum⟩ := ih { acc with moderado := acc.moderado + 1 } ht
      exact ⟨c, by simpa [count_strikes_aux, h1, hne] using hc, by simp at hsum ⊢; omega⟩
    · have hne : ¬ (a.tipo = "leve") := by rw [h1]; decide
      have hne2 : ¬ (a.tipo = "moderado") := by rw [h1]; decide
      obtain ⟨c, hc, hsum⟩ := ih { acc with grave := acc.grave + 1 } ht
      exact ⟨c, by simpa [count_strikes_aux, h1, hne, hne2] using hc,
        by simp at hsum ⊢; omega⟩

/-- Accumulator form of the error half of claim C10. -/
theorem count_strikes_aux_error (l : List Strike) : ∀ (acc : StrikeCounts) (s : Strike),
    s ∈ l → ¬ validTipo s.tipo → ∃ e, count_strikes_aux acc l = .error e := by
  induction l with
  | nil => intro acc s hs; exact absurd hs (List.not_mem_nil s)
  | cons a t ih =>
    intro acc s hs hbad
    by_cases hv : validTipo a.tipo
    · have hst : s ∈ t := by
        rcases List.mem_cons.mp hs with h | h
        · exact absurd (by rw [h]; exact hv) hbad
        · exact h
      rcases hv with h1 | h1 | h1
      · obtain ⟨e, he⟩ := ih { acc with leve := acc.leve + 1 } s hst hbad
        exact ⟨e, by simpa [count_strikes_aux, h1] using he⟩
      · have hne : ¬ (a.tipo = "leve") := by rw [h1]; decide
        obtain ⟨e, he⟩ := ih { acc with moderado := acc.moderado + 1 } s hst hbad
        exact ⟨e, by simpa [count_strikes_aux, h1, hne] using he⟩
      · have hne : ¬ (a.tipo = "leve") := by rw [h1]; decide
        have hne2 : ¬ (a.tipo = "moderado") := by rw [h1]; decide
        obtain ⟨e, he⟩ := ih { acc with grave := acc.grave + 1 } s hst hbad
        exact ⟨e, by simpa [count_strikes_aux, h1, hne, hne2] using he⟩
    · have hn := hv
      rw [validTipo, not_or, not_or] at hn
      exact ⟨a.tipo, by simp [count_strikes_aux, hn.1, hn.2.1, hn.2.2]⟩

/-- Claim C10: on any entry list whose severities all lie in the recognised
set — as does every entry `_add_strike` appends, its severity argument being
drawn from the three-value `Literal` — `count_strikes` succeeds and its three
counts sum to the list length; an entry with a severity outside that set
drives `count_strikes` into its error (KeyError) branch. -/
theorem count_strikes_totals :
    (∀ l : List Strike, (∀ s ∈ l, validTipo s.tipo) →
      ∃ c, count_strikes l = .ok c ∧ c.leve + c.moderado + c.grave = l.length) ∧
    (∀ (l : List Strike) (s : Strike), s ∈ l → ¬ validTipo s.tipo →
      ∃ e, count_strikes l = .error e) ∧
    (∀ t : Severity, validTipo t.toStr) := by
  refine ⟨fun l h => ?_, fun l s hs hbad => count_strikes_aux_error l ⟨0, 0, 0⟩ s hs hbad,
    fun t => by cases t <;> simp [Severity.toStr, validTipo]⟩
  obtain ⟨c, hc, hsum⟩ := count_strikes_aux_ok l ⟨0, 0, 0⟩ h
  exact ⟨c, hc, by simpa using hsum⟩

/-- Witness for C10 at concrete inputs: a two-entry valid history counts to
total 2, and a history containing severity "epic" errors out. -/
theorem count_strikes_totals_witness :
    (∃ c, count_strikes [⟨"leve", "spam", "2024-01-01", "mod"⟩,
        ⟨"grave", "flood", "2024-01-02", "mod"⟩] = .ok c ∧
      c.leve + c.moderado + c.grave = 2) ∧
    (∃ e, count_strikes [⟨"epic", "x", "2024-01-01", "mod"⟩] = .error e) := by
  constructor
  · exact count_strikes_totals.1
      [⟨"leve", "spam", "2024-01-01", "mod"⟩, ⟨"grave", "flood", "2024-01-02", "mod"⟩]
      (by decide)
  · exact count_strikes_totals.2.1 [⟨"epic", "x", "2024-01-01", "mod"⟩]
      ⟨"epic", "x", "2024-01-01", "mod"⟩ (by decide) (by decide)

/-- Claim C8: for any user whose ledger is empty (no entry list, or an empty
one), `remove_strike` fails with not-found and leaves the store untouched,
while `add_strike` (with a non-empty reason, as its falsy-argument guard
requires for an entry to be appended at all) followed by `remove_strike`
removes exactly the entry just appended and returns that user's ledger to
empty. -/
theorem add_then_remove_strike (data : StrikesData) (uid : String) (t : Severity)
    (m fecha autor : String) (hm : m ≠ "")
    (hempty : data.lookup uid = none ∨ data.lookup uid = some []) :
    remove_strike data uid = (.notFound, data) ∧
    (remove_strike (add_strike data uid (some t) (some m) fecha autor).2 uid).1
      = .removed ⟨t.toStr, m, fecha, autor⟩ ∧
    ((remove_strike (add_strike data uid (some t) (some m) fecha autor).2 uid).2).lookup uid
      = some [] := by
  have hl : ((add_strike data uid (some t) (some m) fecha autor).2).lookup uid
      = some [⟨t.toStr, m, fecha, autor⟩] := by
    rcases hempty with h | h <;> simp [add_strike, h, hm, dictSet_lookup]
  refine ⟨?_, ?_, ?_⟩
  · rcases hempty with h | h <;> simp [remove_strike, h]
  · simp [remove_strike, hl]
  · simp [remove_strike, hl, dictSet_lookup]

/-- Witness for C8 at concrete inputs: user "42" with an absent ledger. -/
theorem add_then_remove_strike_witness :
    remove_strike [("7", [⟨"leve", "x", "d", "a"⟩])] "42"
      = (.notFound, [("7", [⟨"leve", "x", "d", "a"⟩])]) ∧
    (remove_strike (add_strike [("7", [⟨"leve", "x", "d", "a"⟩])] "42"
        (some Severity.grave) (some "spam") "2024-01-01" "mod").2 "42").1
      = .removed ⟨"grave", "spam", "2024-01-01", "mod"⟩ ∧
    ((remove_strike (add_strike [("7", [⟨"leve", "x", "d", "a"⟩])] "42"
        (some Severity.grave) (some "spam") "2024-01-01" "mod").2 "42").2).lookup "42"
      = some [] :=
  add_then_remove_strike [("7", [⟨"leve", "x", "d", "a"⟩])] "42"
    Severity.grave "spam" "2024-01-01" "mod" (by decide) (Or.inl (by decide))

/-- A save sequence, run against a file already holding `old`, ends with the
file holding exactly `c` but passes through an intermediate state in which
the file is empty. -/
def overwritesThenExposesEmpty (path : String) (ops : List FsOp) (old c : String) : Prop :=
  (applyOps ⟨[(path, old)], none⟩ ops).files.lookup path = some c ∧
  (applyOps ⟨[(path, old)], none⟩ (ops.take 1)).files.lookup path = some ""

/-- Claim C2 fails on the code: `save_counters` performs no temporary-location
write at all, and interrupting it right after the truncating `open` leaves the
counters file empty — neither the previous snapshot nor the new content. -/
theorem save_counters_midwrite_loss :
    ((save_counters_ops "new-snapshot").all fun op =>
      match op with
      | .writeTemp _ => false
      | .renameTemp _ => false
      | _ => true) = true ∧
    (applyOps ⟨[("message_counters.json", "old-snapshot")], none⟩
        ((save_counters_ops "new-snapshot").take 1)).files.lookup "message_counters.json"
      = some "" ∧
    ¬ ((applyOps ⟨[("message_counters.json", "old-snapshot")], none⟩
          ((save_counters_ops "new-snapshot").take 1)).files.lookup "message_counters.json"
        = some "old-snapshot" ∨
       (applyOps ⟨[("message_counters.json", "old-snapshot")], none⟩
          ((save_counters_ops "new-snapshot").take 1)).files.lookup "message_counters.json"
        = some "new-snapshot") := by decide

/-- Claim C2 amended: every record-set save opens the target file for writing
(truncating it) and dumps the new serialization in place, so a completed save
stores exactly the new content, but a save interrupted right after the open
leaves an empty file rather than the prior snapshot; the
write-to-temporary-then-publish discipline the spec describes would instead
leave the old or the new snapshot at every interruption point. -/
theorem saves_overwrite_in_place :
    (∀ old c, overwritesThenExposesEmpty "message_counters.json" (save_counters_ops c) old c) ∧
    (∀ old c, overwritesThenExposesEmpty "strikes.json" (save_strikes_ops c) old c) ∧
    (∀ old c, overwritesThenExposesEmpty "suggestions.json" (save_suggestions_ops c) old c) ∧
    (∀ old c, overwritesThenExposesEmpty "tickets.json" (save_tickets_ops c) old c) ∧
    (∀ path old c k,
      (applyOps ⟨[(path, old)], none⟩ ((saveAtomicSpecOps path c).take k)).files.lookup path
        = some old ∨
      (applyOps ⟨[(path, old)], none⟩ ((saveAtomicSpecOps path c).take k)).files.lookup path
        = some c) := by
  refine ⟨?_, ?_, ?_, ?_, ?_⟩
  case _ =>
    intro old c
    exact ⟨by simp [applyOps, applyOp, save_counters_ops, dictSet_lookup],
      by simp [applyOps, applyOp, save_counters_ops, dictSet_lookup]⟩
  case _ =>
    intro old c
    exact ⟨by simp [applyOps, applyOp, save_strikes_ops, dictSet_lookup],
      by simp [applyOps, applyOp, save_strikes_ops, dictSet_lookup]⟩
  case _ =>
    intro old c
    exact ⟨by simp [applyOps, applyOp, save_suggestions_ops, dictSet_lookup],
      by simp [applyOps, applyOp, save_suggestions_ops, dictSet_lookup]⟩
  case _ =>
    intro old c
    exact ⟨by simp [applyOps, applyOp, save_tickets_ops, dictSet_lookup],
      by simp [applyOps, applyOp, save_tickets_ops, dictSet_lookup]⟩
  case _ =>
    intro path old c k
    match k with
    | 0 => left; simp [applyOps, saveAtomicSpecOps, List.lookup]
    | 1 => left; simp [applyOps, applyOp, saveAtomicSpecOps, List.lookup]
    | (n + 2) =>
      right
      have htake : (saveAtomicSpecOps path c).take (n + 2) = saveAtomicSpecOps path c := by
        simp [saveAtomicSpecOps]
      rw [htake]
      simp [applyOps, applyOp, saveAtomicSpecOps, dictSet_lookup]

/-- The pending record of the suggestion used to exercise claim C3. -/
def c3Store0 : SuggestionsData := [("100", suggestCreateRecord 5 "ana" "idea" "t0" 10)]

/-- The store after the first (successful) acceptance of suggestion "100". -/
def c3Store1 : SuggestionsData := (suggest_accept true c3Store0 "100" true 3 1 1 "t1").2

/-- Claim C3 fails on the code: `suggest_accept` never consults the stored
status and has no AlreadyResolved outcome, so accepting the same suggestion a
second time (its original message still fetchable, as when the results
channel was unavailable) succeeds again and overwrites the persisted record —
here the reviewer recorded by the first resolution changes from 1 to 2. -/
theorem suggest_accept_twice_overwrites :
    (suggest_accept true c3Store0 "100" true 3 1 1 "t1").1 = ResolveResult.success ∧
    (suggest_accept true c3Store1 "100" true 4 1 2 "t2").1 = ResolveResult.success ∧
    (suggest_accept true c3Store1 "100" true 4 1 2 "t2").2 ≠ c3Store1 ∧
    ((suggest_accept true c3Store1 "100" true 4 1 2 "t2").2.lookup "100").map
        SuggestionRecord.reviewed_by = some (some 2) ∧
    (c3Store1.lookup "100").map SuggestionRecord.reviewed_by = some (some 1) := by decide

/-- Claim C3 amended: resolving requires only that the record exist — there
is no pending-status check and no AlreadyResolved outcome.  While the
original suggestion message is still fetchable, a resolve succeeds from any
prior status and overwrites status, reviewer, timestamp and tally; when the
original message can no longer be fetched (as after a first resolution moved
it to the results channel and deleted it), the call reports the message
unavailable and leaves the store unchanged. -/
theorem suggest_resolve_no_status_check (newStatus : String) (store : SuggestionsData)
    (mid : String) (r : SuggestionRecord) (upvotes downvotes : Int)
    (reviewer : Nat) (now : String) (hfound : store.lookup mid = some r) :
    suggest_resolve newStatus true store mid false upvotes downvotes reviewer now
      = (ResolveResult.messageUnavailable, store) ∧
    (suggest_resolve newStatus true store mid true upvotes downvotes reviewer now).1
      = ResolveResult.success ∧
    ((suggest_resolve newStatus true store mid true upvotes downvotes reviewer now).2).lookup mid
      = some { r with
               status := newStatus, reviewed_by := some reviewer,
               reviewed_at := some now, moved_to_results := some true,
               final_votes := some (upvotes, downvotes) } := by
  refine ⟨?_, ?_, ?_⟩ <;> simp [suggest_resolve, hfound, dictSet_lookup]

/-- Witness for the amended C3 at a concrete input: a record that is already
accepted is resolved again — denied this time — and overwritten. -/
theorem suggest_resolve_no_status_check_witness :
    suggest_resolve "denied" true c3Store1 "100" false 4 1 2 "t2"
      = (ResolveResult.messageUnavailable, c3Store1) ∧
    (suggest_resolve "denied" true c3Store1 "100" true 4 1 2 "t2").1
      = ResolveResult.success ∧
    ((suggest_resolve "denied" true c3Store1 "100" true 4 1 2 "t2").2).lookup "100"
      = some { suggestCreateRecord 5 "ana" "idea" "t0" 10 with
               status := "denied", reviewed_by := some 2, reviewed_at := some "t2",
               moved_to_results := some true, final_votes := some (4, 1) } := by
  have h := suggest_resolve_no_status_check "denied" c3Store1 "100"
    { suggestCreateRecord 5 "ana" "idea" "t0" 10 with
      status := "accepted", reviewed_by := some 1, reviewed_at := some "t1",
      moved_to_results := some true, final_votes := some (3, 1) }
    4 1 2 "t2" (by decide)
  refine ⟨h.1, h.2.1, ?_⟩
  rw [h.2.2]

/-- The empty initial ticket state: fresh bot, no tickets file. -/
def ticketSt0 : TicketSt := ⟨0, none⟩

def c1Step1 : TicketSt × Nat := create_ticket ticketSt0 1 7 "ana" "ayuda" "t1"

def c1Step2 : TicketSt × Nat := create_ticket c1Step1.1 2 7 "ana" "ayuda" "t2"

def c1Step3 : TicketSt × Nat := create_ticket c1Step2.1 3 7 "ana" "ayuda" "t3"

def c1Step4 : TicketSt × Nat := create_ticket (restartBot c1Step3.1) 4 7 "ana" "ayuda" "t4"

/-- Claim C1 fails on the code: `create_ticket` increments the in-memory
counter but then calls `load_tickets`, which overwrites that counter with the
stale persisted value before the save, so three consecutive creates issue
sequence numbers 1, 2, 2 — the third repeats the second — and the first
create after a restart reissues number 1. -/
theorem create_ticket_repeats_numbers :
    c1Step1.2 = 1 ∧ c1Step2.2 = 2 ∧ c1Step3.2 = 2 ∧ c1Step4.2 = 1 ∧
    ¬ (c1Step2.2 < c1Step3.2) := by decide

/-- Claim C5 fails on the code: with threshold 2 and three concurrent counter
handlers on one channel, the interleaving that lets two handlers pass the
threshold check before either resumes from the `await send_reminder`
suspension emits 2 reminders instead of floor(3/2) = 1 (which the serialized
schedule does emit); the read-increment-check and the reset are not one
atomic unit. -/
theorem on_message_counter_double_fire :
    (runSched 2 3 [0, 1, 2, 1, 2]).fires = 2 ∧
    (runSched 2 3 [0, 1, 2, 1, 2]).phases = [2, 2, 2] ∧
    (runSched 2 3 [0, 1, 1, 2]).fires = 3 / 2 ∧
    (runSched 2 3 [0, 1, 1, 2]).phases = [2, 2, 2] ∧
    (runSched 2 3 [0, 1, 2, 1, 2]).fires ≠ 3 / 2 := by decide

/-- Behaviour of the counter block for a counter at rest below the
threshold: the increment fires exactly on reaching the threshold, the stored
value is reset to zero exactly then, and it stays below the threshold. -/
theorem recordMessage_spec (counters : List (Nat × Nat)) (chan threshold c : Nat)
    (hpos : 0 < threshold) (hc : (counters.lookup chan).getD 0 = c)
    (hinv : c < threshold) :
    (recordMessage counters chan threshold).1 = decide (c + 1 = threshold) ∧
    (((recordMessage counters chan threshold).2.lookup chan).getD 0
      = if c + 1 = threshold then 0 else c + 1) ∧
    ((recordMessage counters chan threshold).2.lookup chan).getD 0 < threshold := by
  unfold recordMessage
  rw [hc]
  by_cases hT : c + 1 = threshold
  · have hle : threshold ≤ c + 1 := le_of_eq hT.symm
    simp [hle, hT, dictSet_lookup, hpos]
  · have hnle : ¬ (threshold ≤ c + 1) := by omega
    refine ⟨by simp [hnle, hT], by simp [hnle, hT, dictSet_lookup], ?_⟩
    simp [hnle, dictSet_lookup]
    omega

/-- In the monitored suggestions channel, a non-bot, non-test message that is
either a command or from a privileged author reaches exactly the counter
block, whose output is persisted by the single trailing save. -/
theorem on_message_suggestion_branch (cfg : BotConfig) (st : CounterState) (msg : Msg)
    (tickets : List (Nat × TicketRec))
    (hbot : msg.authorBot = false) (htest : isTestCommand msg.content = false)
    (hchan : msg.channelId = cfg.channelId)
    (hallow : pyStartsWith msg.content "/" = true ∨ msg.authorPrivileged = true) :
    on_message cfg st msg tickets =
      ({ st with messageCounters :=
          (recordMessage st.messageCounters msg.channelId cfg.messageThreshold).2 },
       { noMsgEffects with
         sentReminder := (recordMessage st.messageCounters msg.channelId cfg.messageThreshold).1,
         savedCounters :=
           some (recordMessage st.messageCounters msg.channelId cfg.messageThreshold).2 }) := by
  have hgate : (!(pyStartsWith msg.content "/") && !msg.authorPrivileged) = false := by
    rcases hallow with h | h <;> simp [h]
  simp [on_message, hbot, htest, hchan, hgate]

/-- Claim C6: in the monitored channel, with a positive threshold and the
stored counter at rest below it, each processed qualifying message increments
the counter by one; the reminder fires exactly when the new value reaches the
threshold, in which case the counter is reset to zero within the same
persisted snapshot (the single save holds the post-reset map), otherwise no
reminder is sent; and the stored counter stays strictly below the
threshold. -/
theorem on_message_counter_invariant (cfg : BotConfig) (st : CounterState) (msg : Msg)
    (tickets : List (Nat × TicketRec)) (c : Nat)
    (hbot : msg.authorBot = false) (htest : isTestCommand msg.content = false)
    (hchan : msg.channelId = cfg.channelId)
    (hallow : pyStartsWith msg.content "/" = true ∨ msg.authorPrivileged = true)
    (hpos : 0 < cfg.messageThreshold)
    (hcount : (st.messageCounters.lookup msg.channelId).getD 0 = c)
    (hinv : c < cfg.messageThreshold) :
    (on_message cfg st msg tickets).2.savedCounters
      = some (on_message cfg st msg tickets).1.messageCounters ∧
    ((on_message cfg st msg tickets).1.messageCounters.lookup msg.channelId).getD 0
      = (if c + 1 = cfg.messageThreshold then 0 else c + 1) ∧
    (on_message cfg st msg tickets).2.sentReminder = decide (c + 1 = cfg.messageThreshold) ∧
    ((on_message cfg st msg tickets).1.messageCounters.lookup msg.channelId).getD 0
      < cfg.messageThreshold := by
  have hb := on_message_suggestion_branch cfg st msg tickets hbot htest hchan hallow
  have hr := recordMessage_spec st.messageCounters msg.channelId cfg.messageThreshold c
    hpos hcount hinv
  rw [hb]
  exact ⟨rfl, hr.2.1, hr.1, hr.2.2⟩

/-- A qualifying command message in the monitored channel (id 10), with the
stored counter at 1 and threshold 2. -/
def c6Msg : Msg := ⟨false, 1, true, "/suggest create x", 10, true, "sugerencias"⟩

/-- Witness for C6 at a concrete input: counter 1, threshold 2 — the message
fires the reminder, and the persisted snapshot holds the reset counter 0. -/
theorem on_message_counter_invariant_witness :
    ((on_message ⟨10, 2, 5⟩ ⟨[(10, 1)], 0⟩ c6Msg []).1.messageCounters.lookup 10).getD 0
      = 0 ∧
    (on_message ⟨10, 2, 5⟩ ⟨[(10, 1)], 0⟩ c6Msg []).2.sentReminder = true ∧
    (on_message ⟨10, 2, 5⟩ ⟨[(10, 1)], 0⟩ c6Msg []).2.savedCounters
      = some (on_message ⟨10, 2, 5⟩ ⟨[(10, 1)], 0⟩ c6Msg []).1.messageCounters := by
  have h := on_message_counter_invariant ⟨10, 2, 5⟩ ⟨[(10, 1)], 0⟩ c6Msg [] 1
    rfl (by decide) rfl (Or.inl (by decide)) (by decide) (by decide) (by decide)
  exact ⟨by simpa using h.2.1, by simpa using h.2.2.1, h.1⟩

/-- A non-command human message posted in the monitored suggestions channel
(id 10) by a privileged author. -/
def c7Msg : Msg := ⟨false, 1, true, "hola", 10, true, "sugerencias"⟩

/-- Claim C7 fails on the code: a non-command human message posted in the
monitored suggestions channel is handled entirely by the per-channel counter
branch, which returns before the help-counter block, so the help counter does
not increment for it. -/
theorem help_counter_misses_suggestion_channel :
    (on_message ⟨10, 5, 10⟩ ⟨[], 0⟩ c7Msg []).1.helpCounter = 0 ∧
    (on_message ⟨10, 5, 10⟩ ⟨[], 0⟩ c7Msg []).2.sentHelp = false ∧
    ¬ ((on_message ⟨10, 5, 10⟩ ⟨[], 0⟩ c7Msg []).1.helpCounter = 0 + 1) := by decide

/-- Claim C7 amended: the help counter counts each non-command human message
posted in a named channel other than the monitored suggestions channel,
provided it is not a test command and is not removed by the ticket-channel
gate (its author is privileged, or is the recorded creator, or the channel is
not a recorded ticket channel); the help prompt fires and the counter resets
to zero exactly when the counter reaches its threshold.  Non-command human
messages in the monitored suggestions channel never reach the help
counter. -/
theorem help_counter_counts_other_channels (cfg : BotConfig) (st : CounterState)
    (msg : Msg) (tickets : List (Nat × TicketRec))
    (hbot : msg.authorBot = false) (htest : isTestCommand msg.content = false)
    (hchan : msg.channelId ≠ cfg.channelId)
    (hslash : pyStartsWith msg.content "/" = false)
    (hname : msg.channelHasName = true)
    (hgate : ∀ t, tickets.lookup msg.channelId = some t →
      pyStartsWith msg.channelName ticketNameTag = true →
      msg.authorPrivileged = false → msg.authorId = t.creator_id) :
    (cfg.helpThreshold ≤ st.helpCounter + 1 →
      (on_message cfg st msg tickets).1.helpCounter = 0 ∧
      (on_message cfg st msg tickets).2.sentHelp = true) ∧
    (st.helpCounter + 1 < cfg.helpThreshold →
      (on_message cfg st msg tickets).1.helpCounter = st.helpCounter + 1 ∧
      (on_message cfg st msg tickets).2.sentHelp = false) := by
  have hmain : on_message cfg st msg tickets = helpStep cfg st msg := by
    by_cases ht : (msg.channelHasName && pyStartsWith msg.channelName ticketNameTag
        && !msg.authorPrivileged) = true
    · have ht' := ht
      simp only [Bool.and_eq_true, Bool.not_eq_true'] at ht'
      obtain ⟨⟨hhn, hn⟩, hp⟩ := ht'
      cases hl : tickets.lookup msg.channelId with
      | none => simp [on_message, hbot, htest, hchan, ht, hl]
      | some t =>
        have hcreator := hgate t hl hn hp
        simp [on_message, hbot, htest, hchan, ht, hl, hcreator]
    · simp [on_message, hbot, htest, hchan, ht]
  rw [hmain]
  constructor
  · intro hth
    simp [helpStep, hslash, hbot, hname, hth]
  · intro hth
    have hnth : ¬ (cfg.helpThreshold ≤ st.helpCounter + 1) := by omega
    simp [helpStep, hslash, hbot, hname, hnth, noMsgEffects]

/-- A non-command human message in an ordinary named channel (id 11), from a
non-privileged author. -/
def c7wMsg : Msg := ⟨false, 1, false, "hola", 11, true, "general"⟩

/-- Witness for the amended C7 at a concrete input: help counter 2 with
threshold 3 — the message fires the help prompt and resets the counter. -/
theorem help_counter_counts_other_channels_witness :
    (on_message ⟨10, 5, 3⟩ ⟨[], 2⟩ c7wMsg []).1.helpCounter = 0 ∧
    (on_message ⟨10, 5, 3⟩ ⟨[], 2⟩ c7wMsg []).2.sentHelp = true := by
  have h := help_counter_counts_other_channels ⟨10, 5, 3⟩ ⟨[], 2⟩ c7wMsg []
    rfl (by decide) (by decide) (by decide) rfl
    (fun t ht _ _ => by simp at ht)
  exact h.1 (by decide)

/-- Claim C9: closing from a ticket-named channel that has no record in the
store fails with not-found and has no side effects — no transcript is
generated, the persisted tickets file is unchanged, and no channel deletion
is issued. -/
theorem close_ticket_missing_record (s : TicketSt) (chanName : String)
    (chanId closerId : Nat) (now : String)
    (hname : pyStartsWith chanName ticketNameTag = true)
    (hmiss : ((load_tickets s).2).lookup chanId = none) :
    close_ticket s true chanName chanId closerId now
      = (CloseResult.notFound, (load_tickets s).1, noCloseEffects) ∧
    ((load_tickets s).1).file = s.file := by
  constructor
  · simp [close_ticket, hname, hmiss]
  · rcases hf : s.file with _ | p
    · simp [load_tickets, hf]
    · obtain ⟨a, b⟩ := p
      simp [load_tickets, hf]

def c9Ticket : TicketRec := ⟨1, 9, "bob", "ayuda", "t0", "open", none, none⟩

/-- A ticket store holding only channel 5; channel 7 has no record. -/
def c9St : TicketSt := ⟨1, some (1, [(5, c9Ticket)])⟩

/-- Witness for C9 at a concrete input: closing ticket-named channel 7, which
has no record, fails with not-found and leaves the file untouched. -/
theorem close_ticket_missing_record_witness :
    close_ticket c9St true (ticketNameTag ++ "0002") 7 9 "t9"
      = (CloseResult.notFound, (load_tickets c9St).1, noCloseEffects) ∧
    ((load_tickets c9St).1).file = c9St.file :=
  close_ticket_missing_record c9St (ticketNameTag ++ "0002") 7 9 "t9"
    (by decide) (by decide)

end VanillaBot
